import Mathlib

/-!
Verification of the two scripts in this repository:

* `Project Folders/Scripts/infiltration.py` — Green–Ampt infiltration
  computation.  The numeric core `compute_infiltration` is embedded over `ℚ`
  (exact rational arithmetic standing in for Python floats; division by zero
  totalises to `0` as usual in Lean).
* `Project Folders/Scripts/Class Exercise 6 Outputs/zip_code_centroids.py` —
  the gazetteer-to-centroid-shapefile pipeline, embedded as operations on
  association-list rows.

Definitions come first (both scripts), followed by the lemmas and the
claim theorems.
-/

namespace Infiltration

/-- Result record of `compute_infiltration`: the sampled volume axis `F`,
the matching rates `f`, the ponding volume `F_p` and time to ponding `t_p`. -/
structure InfiltrationResult where
  F : List ℚ
  f : List ℚ
  F_p : ℚ
  t_p : ℚ
deriving Repr

/-- `np.linspace a b n`: `n` evenly spaced samples from `a` to `b` inclusive. -/
def linspace (a b : ℚ) (n : ℕ) : List ℚ :=
  if n = 0 then []
  else if n = 1 then [a]
  else (List.range n).map (fun i => a + (b - a) * i / (n - 1))

/-- Embedding of `compute_infiltration` from `infiltration.py`:
`delta_theta = theta_s - theta_i`, `F_p = delta_theta*psi / (1 - rain/Ks)`,
`t_p = F_p / Ks`; the rate at a sampled volume `Fi` is `rain_intensity`
when `Fi ≤ F_p` and `Ks * (1 - delta_theta*psi/Fi)` otherwise.
The Python defaults are `F_max = 1`, `n_points = 500`; here they are
explicit arguments. -/
def compute_infiltration (Ks theta_s theta_i psi rain_intensity F_max : ℚ)
    (n_points : ℕ) : InfiltrationResult :=
  let delta_theta := theta_s - theta_i
  let F_p := (delta_theta * psi) / (1 - rain_intensity / Ks)
  let t_p := F_p / Ks
  let F := linspace 0 F_max n_points
  let f := F.map (fun Fi =>
    if Fi ≤ F_p then rain_intensity else Ks * (1 - (delta_theta * psi) / Fi))
  ⟨F, f, F_p, t_p⟩

end Infiltration

namespace ZipCodeCentroids

/-- A geometry value; `zip_code_centroids.py` only ever builds single points
(`shapely.geometry.Point`), but the geometry type of a file read back is in
general any of these. -/
inductive Geometry where
  | point (x y : ℚ)
  | multipoint (pts : List (ℚ × ℚ))
deriving Repr, DecidableEq

/-- One cell of a dataframe column: a raw string (everything after
`read_csv(..., dtype=str)`), a numeric value where `none` models `NaN`
(the result of `pd.to_numeric(..., errors="coerce")` on a bad string), or
a geometry. -/
inductive Cell where
  | str (s : String)
  | num (q : Option ℚ)
  | geom (g : Geometry)
deriving Repr, DecidableEq

/-- A dataframe row: cells keyed by column name, in column order. -/
abbrev Row : Type := List (String × Cell)

/-- Value of column `c` in row `r` (first matching key). -/
def Row.get? : Row → String → Option Cell
  | [], _ => none
  | p :: t, c => if p.1 == c then some p.2 else Row.get? t c

/-- Whether row `r` has a column named `c`. -/
def Row.hasCol : Row → String → Bool
  | [], _ => false
  | p :: t, c => if p.1 == c then true else Row.hasCol t c

/-- String content of column `c` (default `""`), used where the Python code
reads a `dtype=str` column such as `GEOID`. -/
def Row.getStr (r : Row) (c : String) : String :=
  match r.get? c with
  | some (Cell.str s) => s
  | _ => ""

/-- Numeric content of column `c` (default `0`), used where the Python code
reads an already-coerced numeric column. -/
def Row.getNum (r : Row) (c : String) : ℚ :=
  match r.get? c with
  | some (Cell.num (some q)) => q
  | _ => 0

/-- Column assignment `df[c] = v` at row level: overwrite the column if it
exists, otherwise append it. -/
def Row.setCol (r : Row) (c : String) (v : Cell) : Row :=
  if r.hasCol c then
    r.map (fun p => if p.1 == c then (c, v) else p)
  else r ++ [(c, v)]

/-- Apply `g` to the cells of column `c` (elementwise column transform). -/
def Row.mapCol (r : Row) (c : String) (g : Cell → Cell) : Row :=
  r.map (fun p => if p.1 == c then (p.1, g p.2) else p)

/-- `pandas` missing-value test for column `c` of a row: true when the cell
is a numeric `NaN` or the column is absent. -/
def Row.isNA (r : Row) (c : String) : Bool :=
  match r.get? c with
  | some (Cell.num none) => true
  | some _ => false
  | none => true

/-- `float`/`pd.to_numeric` string parsing over `ℚ`: optional sign, decimal
digits with an optional fraction part (exponent notation is not modelled).
`none` models a coercion failure (`NaN` under `errors="coerce"`), in
particular for the empty string and for non-numeric text. -/
def parseRat? (s : String) : Option ℚ :=
  let cs := s.data
  let signed : Bool × List Char :=
    match cs with
    | '-' :: t => (true, t)
    | '+' :: t => (false, t)
    | _ => (false, cs)
  let intPart := signed.2.takeWhile (fun c => !(c == '.'))
  let rest := signed.2.dropWhile (fun c => !(c == '.'))
  let fracPart : Option (List Char) :=
    match rest with
    | [] => some []
    | _ :: t => if t.any (fun c => c == '.') then none else some t
  match fracPart with
  | none => none
  | some frac =>
    if intPart.all Char.isDigit && frac.all Char.isDigit
        && (!intPart.isEmpty || !frac.isEmpty) then
      let mag : ℚ := (intPart.foldl (fun a c => 10 * a + (c.toNat - 48)) 0 : ℕ)
        + ((frac.foldl (fun a c => 10 * a + (c.toNat - 48)) 0 : ℕ) : ℚ)
          / (10 ^ frac.length : ℚ)
      some (if signed.1 then -mag else mag)
    else none

/-- `pd.to_numeric(col, errors="coerce")` at cell level. -/
def toNumCell : Cell → Cell
  | Cell.str s => Cell.num (parseRat? s)
  | Cell.num o => Cell.num o
  | Cell.geom _ => Cell.num none

/-- A dataframe: column names plus rows. -/
structure DataFrame where
  cols : List String
  rows : List Row

/-- A geodataframe: a dataframe plus its coordinate reference system tag. -/
structure GeoDataFrame where
  cols : List String
  rows : List Row
  crs : String

/-- Append a column name if not already present. -/
def setColName (cols : List String) (c : String) : List String :=
  if cols.contains c then cols else cols ++ [c]

/-- One raw input row: header names zipped with the record's string cells. -/
def rawRow (header : List String) (rec : List String) : Row :=
  (header.zip rec).map (fun p => (p.1, Cell.str p.2))

/-- `pd.read_csv(path, delimiter="|", dtype=str)`: header row gives the
column names; every cell is kept as a raw string. -/
def read_csv (header : List String) (records : List (List String)) : DataFrame :=
  ⟨header, records.map (rawRow header)⟩

/-- `df[c] = f(row)` over a dataframe. -/
def DataFrame.assign (df : DataFrame) (c : String) (f : Row → Cell) : DataFrame :=
  ⟨setColName df.cols c, df.rows.map (fun r => r.setCol c (f r))⟩

/-- `df[c] = pd.to_numeric(df[c], errors="coerce")`. -/
def DataFrame.toNumeric (df : DataFrame) (c : String) : DataFrame :=
  ⟨df.cols, df.rows.map (fun r => r.mapCol c toNumCell)⟩

/-- `df.dropna(subset=subset)`: keep the rows with no missing value in any
subset column. -/
def DataFrame.dropna (df : DataFrame) (subset : List String) : DataFrame :=
  ⟨df.cols, df.rows.filter (fun r => subset.all (fun c => !(r.isNA c)))⟩

/-- `[Point(xy) for xy in zip(df["INTPTLONG"], df["INTPTLAT"])]`: one point
per row, longitude as the x (first) component, latitude as the y (second). -/
def mkGeometryList (df : DataFrame) : List Geometry :=
  df.rows.map (fun r =>
    Geometry.point (r.getNum "INTPTLONG") (r.getNum "INTPTLAT"))

/-- `gpd.GeoDataFrame(df, geometry=geoms, crs=crs)`: attach the geometry
list positionally as a `geometry` column. -/
def mkGeoDataFrame (df : DataFrame) (geoms : List Geometry) (crs : String) :
    GeoDataFrame :=
  ⟨setColName df.cols "geometry",
    (df.rows.zip geoms).map (fun p => p.1.setCol "geometry" (Cell.geom p.2)),
    crs⟩

/-- `gdf[cs]`: project a geodataframe down to the columns `cs`, in order. -/
def GeoDataFrame.select (g : GeoDataFrame) (cs : List String) : GeoDataFrame :=
  ⟨cs, g.rows.map (fun r =>
    cs.filterMap (fun c => (r.get? c).map (fun v => (c, v)))), g.crs⟩

/-- The `main()` pipeline of `zip_code_centroids.py` up to (and including)
the projection `gdf[["ZIP", "geometry"]]`, parameterised by the parsed
content of the gazetteer file (header plus records). -/
def zipCodeCentroidsMain (header : List String) (records : List (List String)) :
    GeoDataFrame :=
  let df := read_csv header records
  let df := df.assign "ZIP" (fun r => Cell.str (r.getStr "GEOID"))
  let df := (df.toNumeric "INTPTLAT").toNumeric "INTPTLONG"
  let df := df.dropna ["INTPTLAT", "INTPTLONG"]
  let geoms := mkGeometryList df
  let gdf := mkGeoDataFrame df geoms "EPSG:4326"
  gdf.select ["ZIP", "geometry"]

/-- A shapefile on disk: attribute field names, plus one record per feature
holding the attribute cells and the geometry. -/
structure Shapefile where
  fields : List String
  records : List (Row × Geometry)

/-- Geometry column of a row (default a point at the origin). -/
def Row.getGeom (r : Row) : Geometry :=
  match r.get? "geometry" with
  | some (Cell.geom g) => g
  | _ => Geometry.point 0 0

/-- `gdf.to_file(...)`: each row is written as its non-geometry attribute
cells plus its geometry. -/
def to_file (g : GeoDataFrame) : Shapefile :=
  ⟨g.cols.filter (fun c => !(c == "geometry")),
    g.rows.map (fun r => (r.filter (fun p => !(p.1 == "geometry")), r.getGeom))⟩

/-- `gpd.read_file(...)`: each shapefile record becomes a row with its
attribute cells and a `geometry` column; shapefiles carry their crs. -/
def read_file (s : Shapefile) : GeoDataFrame :=
  ⟨s.fields ++ ["geometry"],
    s.records.map (fun p => p.1 ++ [("geometry", Cell.geom p.2)]),
    "EPSG:4326"⟩

/-- The per-row content of the pipeline before filtering: the raw row with
the `ZIP` column assigned and the two coordinate columns coerced. -/
def prepRow (header : List String) (rec : List String) : Row :=
  (((rawRow header rec).setCol "ZIP"
      (Cell.str ((rawRow header rec).getStr "GEOID"))).mapCol
        "INTPTLAT" toNumCell).mapCol "INTPTLONG" toNumCell

/-- The `dropna` filter at row level. -/
def keepRow (r : Row) : Bool :=
  ["INTPTLAT", "INTPTLONG"].all (fun c => !(r.isNA c))

/-- The per-row content of the pipeline after filtering: geometry attached
and the row projected to `ZIP` and `geometry`. -/
def outRow (r : Row) : Row :=
  ["ZIP", "geometry"].filterMap (fun c =>
    ((r.setCol "geometry"
        (Cell.geom (Geometry.point (r.getNum "INTPTLONG")
          (r.getNum "INTPTLAT")))).get? c).map (fun v => (c, v)))

/-- The numeric value the pipeline obtains for coordinate column `c` of an
input record: the parsed value of the raw string, `none` when the string
fails to parse or the column is absent. -/
def coordParse (header : List String) (rec : List String) (c : String) :
    Option ℚ :=
  match (rawRow header rec).get? c with
  | some (Cell.str s) => parseRat? s
  | _ => none

/-- A malformed input record: either coordinate field is non-numeric,
empty, or absent. -/
def malformedRec (header : List String) (rec : List String) : Bool :=
  (coordParse header rec "INTPTLAT").isNone
    || (coordParse header rec "INTPTLONG").isNone

end ZipCodeCentroids

lemma zip_map_self {α β : Type} (l : List α) (g : α → β) :
    l.zip (l.map g) = l.map (fun x => (x, g x)) := by
  induction l with
  | nil => rfl
  | cons a t ih => simp [ih]

lemma countP_add_countP_not {α : Type} (l : List α) (p : α → Bool) :
    l.countP (fun a => !(p a)) + l.countP p = l.length := by
  induction l with
  | nil => rfl
  | cons a t ih =>
    by_cases h : p a <;> simp [List.countP_cons, h, ← ih] <;> omega

namespace Infiltration

lemma compute_infiltration_F_p (Ks theta_s theta_i psi rain_intensity F_max : ℚ)
    (n_points : ℕ) :
    (compute_infiltration Ks theta_s theta_i psi rain_intensity F_max n_points).F_p
      = ((theta_s - theta_i) * psi) / (1 - rain_intensity / Ks) := rfl

lemma compute_infiltration_mem_zip (Ks theta_s theta_i psi rain_intensity F_max : ℚ)
    (n_points : ℕ) (p : ℚ × ℚ)
    (hp : p ∈ (compute_infiltration Ks theta_s theta_i psi rain_intensity F_max
      n_points).F.zip
        (compute_infiltration Ks theta_s theta_i psi rain_intensity F_max n_points).f) :
    p.2 = if p.1 ≤ ((theta_s - theta_i) * psi) / (1 - rain_intensity / Ks)
      then rain_intensity
      else Ks * (1 - ((theta_s - theta_i) * psi) / p.1) := by
  simp only [compute_infiltration, zip_map_self, List.mem_map] at hp
  obtain ⟨x, _, hx⟩ := hp
  subst hx
  rfl

lemma linspace_head (a b : ℚ) (n : ℕ) (hn : 1 ≤ n) :
    (linspace a b n).head? = some a := by
  rcases n with _ | m
  · omega
  · rcases m with _ | k
    · rfl
    · simp only [linspace, List.range_succ_eq_map]
      norm_num

/-- C5: on the homework inputs `Ks=0.53`, `theta_s=0.518`, `theta_i=0.215`,
`psi=-9.37`, `rain_intensity=6.5` (with `F_max=1`, `n_points=500`),
`compute_infiltration` returns `F_p = delta_theta*psi / (1 - rain/Ks)` and
`t_p = F_p / Ks`, with `delta_theta = 0.303`; the exact values are
`F_p = 5015761/19900000 ≈ 0.252` and `t_p = 94637/199000 ≈ 0.4756`. -/
theorem compute_infiltration_homework_values :
    (compute_infiltration 0.53 0.518 0.215 (-9.37) 6.5 1 500).F_p
        = ((0.518 - 0.215) * (-9.37)) / (1 - 6.5 / 0.53)
      ∧ (compute_infiltration 0.53 0.518 0.215 (-9.37) 6.5 1 500).t_p
        = (compute_infiltration 0.53 0.518 0.215 (-9.37) 6.5 1 500).F_p / 0.53
      ∧ ((0.518 : ℚ) - 0.215) = 0.303
      ∧ (compute_infiltration 0.53 0.518 0.215 (-9.37) 6.5 1 500).F_p
        = 5015761 / 19900000
      ∧ (compute_infiltration 0.53 0.518 0.215 (-9.37) 6.5 1 500).t_p
        = 94637 / 199000 := by
  norm_num [compute_infiltration]

/-- C4: for every sampled pair `(Fi, fi)` produced by `compute_infiltration`,
`fi = rain_intensity` when `Fi ≤ F_p` and `fi = Ks*(1 - delta_theta*psi/Fi)`
when `Fi > F_p`; moreover the two branch expressions agree at `F = F_p`
(the piecewise rate is continuous there):
`Ks*(1 - delta_theta*psi/F_p) = rain_intensity`, exactly in `ℚ`. -/
theorem compute_infiltration_piecewise_continuous
    (Ks theta_s theta_i psi rain F_max : ℚ) (n : ℕ)
    (hKs : Ks ≠ 0) (hden : 1 - rain / Ks ≠ 0)
    (hnum : (theta_s - theta_i) * psi ≠ 0) :
    (∀ p ∈ (compute_infiltration Ks theta_s theta_i psi rain F_max n).F.zip
        (compute_infiltration Ks theta_s theta_i psi rain F_max n).f,
        (p.1 ≤ (compute_infiltration Ks theta_s theta_i psi rain F_max n).F_p →
          p.2 = rain) ∧
        ((compute_infiltration Ks theta_s theta_i psi rain F_max n).F_p < p.1 →
          p.2 = Ks * (1 - (theta_s - theta_i) * psi / p.1))) ∧
    Ks * (1 - (theta_s - theta_i) * psi /
      (compute_infiltration Ks theta_s theta_i psi rain F_max n).F_p) = rain := by
  have hFp : (compute_infiltration Ks theta_s theta_i psi rain F_max n).F_p
      = (theta_s - theta_i) * psi / (1 - rain / Ks) := rfl
  constructor
  · intro p hp
    have h := compute_infiltration_mem_zip Ks theta_s theta_i psi rain F_max n p hp
    rw [hFp]
    constructor
    · intro hle
      rw [h, if_pos hle]
    · intro hlt
      rw [h, if_neg (not_le.mpr hlt)]
  · rw [hFp]
    have h1 : (theta_s - theta_i) * psi /
        ((theta_s - theta_i) * psi / (1 - rain / Ks)) = 1 - rain / Ks := by
      rw [div_div_eq_mul_div, mul_comm, mul_div_assoc, div_self hnum, mul_one]
    rw [h1]
    field_simp

/-- C4 witness: at the homework inputs (with 5 sample points) the two branch
expressions of the piecewise rate agree at `F = F_p`. -/
theorem compute_infiltration_piecewise_continuous_witness :
    (0.53 : ℚ) * (1 - (0.518 - 0.215) * (-9.37) /
      (compute_infiltration 0.53 0.518 0.215 (-9.37) 6.5 1 5).F_p) = 6.5 :=
  (compute_infiltration_piecewise_continuous 0.53 0.518 0.215 (-9.37) 6.5 1 5
    (by norm_num) (by norm_num) (by norm_num)).2

/-- C6: `compute_infiltration` applies the ponding-volume formula with no
guard on the denominator `1 - rain/Ks`: the division is performed for every
input, and whenever `rain_intensity ≤ Ks` (with `Ks > 0`, `psi < 0`,
`theta_i < theta_s`) the resulting non-positive `F_p` is returned as is
(no error is raised; in this `ℚ` embedding the singular case `rain = Ks`
totalises the division to `0`). -/
theorem compute_infiltration_no_denominator_guard
    (Ks theta_s theta_i psi rain F_max : ℚ) (n : ℕ)
    (hKs : 0 < Ks) (hpsi : psi < 0) (hth : theta_i < theta_s) (hrain : rain ≤ Ks) :
    (compute_infiltration Ks theta_s theta_i psi rain F_max n).F_p
        = ((theta_s - theta_i) * psi) / (1 - rain / Ks)
      ∧ (compute_infiltration Ks theta_s theta_i psi rain F_max n).F_p ≤ 0 := by
  refine ⟨rfl, ?_⟩
  show ((theta_s - theta_i) * psi) / (1 - rain / Ks) ≤ 0
  have hnum : (theta_s - theta_i) * psi ≤ 0 :=
    mul_nonpos_of_nonneg_of_nonpos (by linarith) (le_of_lt hpsi)
  have hden : 0 ≤ 1 - rain / Ks := by
    have : rain / Ks ≤ 1 := (div_le_one hKs).mpr hrain
    linarith
  exact div_nonpos_of_nonpos_of_nonneg hnum hden

/-- C6 witness: a concrete input with `rain_intensity < Ks` where the
unguarded formula is applied and a non-positive `F_p` is propagated. -/
theorem compute_infiltration_no_denominator_guard_witness :
    (compute_infiltration 1 0.5 0.2 (-1) 0.5 1 5).F_p
        = ((0.5 - 0.2) * (-1)) / (1 - 0.5 / 1)
      ∧ (compute_infiltration 1 0.5 0.2 (-1) 0.5 1 5).F_p ≤ 0 :=
  compute_infiltration_no_denominator_guard 1 0.5 0.2 (-1) 0.5 1 5
    (by norm_num) (by norm_num) (by norm_num) (by norm_num)

/-- C10: the division by a sampled volume `Fi` happens only in the branch
`Fi > F_p`; whenever `F_p ≥ 0` the first sample `Fi = 0` takes the
pre-ponding branch, so the returned rate at `Fi = 0` is `rain_intensity`,
and every sample in the post-ponding branch is nonzero (no division by
zero anywhere in the sampling loop). -/
theorem compute_infiltration_no_div_by_zero
    (Ks theta_s theta_i psi rain F_max : ℚ) (n : ℕ) (hn : 1 ≤ n)
    (hFp : 0 ≤ ((theta_s - theta_i) * psi) / (1 - rain / Ks)) :
    (compute_infiltration Ks theta_s theta_i psi rain F_max n).f.head? = some rain
      ∧ ∀ p ∈ (compute_infiltration Ks theta_s theta_i psi rain F_max n).F.zip
          (compute_infiltration Ks theta_s theta_i psi rain F_max n).f,
          (compute_infiltration Ks theta_s theta_i psi rain F_max n).F_p < p.1 →
            p.1 ≠ 0 := by
  have hFp' : (compute_infiltration Ks theta_s theta_i psi rain F_max n).F_p
      = (theta_s - theta_i) * psi / (1 - rain / Ks) := rfl
  constructor
  · show ((linspace 0 F_max n).map _).head? = some rain
    rw [List.head?_map, linspace_head 0 F_max n hn]
    show some (if (0 : ℚ)
        ≤ (compute_infiltration Ks theta_s theta_i psi rain F_max n).F_p
      then rain else _) = some rain
    rw [if_pos (hFp' ▸ hFp)]
  · intro p hp hlt
    have h0 : (0 : ℚ) < p.1 := lt_of_le_of_lt (hFp' ▸ hFp) hlt
    exact ne_of_gt h0

/-- C10 witness: at the homework inputs (where `F_p > 0`, 5 sample points)
the rate at the first sample `Fi = 0` equals the rain intensity. -/
theorem compute_infiltration_no_div_by_zero_witness :
    (compute_infiltration 0.53 0.518 0.215 (-9.37) 6.5 1 5).f.head? = some 6.5 :=
  (compute_infiltration_no_div_by_zero 0.53 0.518 0.215 (-9.37) 6.5 1 5
    (by norm_num) (by norm_num)).1

end Infiltration

namespace ZipCodeCentroids

lemma hasCol_eq_isSome (r : Row) (c : String) :
    r.hasCol c = (r.get? c).isSome := by
  induction r with
  | nil => rfl
  | cons a t ih =>
    by_cases h : a.1 = c
    · simp [Row.hasCol, Row.get?, h]
    · simp [Row.hasCol, Row.get?, h]
      simpa using ih

lemma get?_append_of_none (r₁ r₂ : Row) (c : String) (h : r₁.get? c = none) :
    Row.get? (r₁ ++ r₂) c = r₂.get? c := by
  induction r₁ with
  | nil => rfl
  | cons a t ih =>
    by_cases ha : a.1 = c
    · simp [Row.get?, ha] at h
    · simp [Row.get?, ha] at h ⊢
      exact ih h

lemma get?_overwrite_self (r : Row) (c : String) (v : Cell) :
    Row.get? (r.map (fun p => if p.1 == c then (c, v) else p)) c
      = if r.hasCol c then some v else none := by
  induction r with
  | nil => rfl
  | cons a t ih =>
    by_cases h : a.1 = c
    · simp [Row.get?, Row.hasCol, h]
    · simp [Row.get?, Row.hasCol, h]
      simpa using ih

lemma get?_setCol_self (r : Row) (c : String) (v : Cell) :
    Row.get? (r.setCol c v) c = some v := by
  unfold Row.setCol
  by_cases h : r.hasCol c
  · rw [if_pos h, get?_overwrite_self, if_pos h]
  · rw [if_neg h]
    have hnone : r.get? c = none := by
      rw [hasCol_eq_isSome] at h
      cases hc : r.get? c
      · rfl
      · rw [hc] at h
        simp at h
    rw [get?_append_of_none r _ c hnone]
    simp [Row.get?]

lemma get?_overwrite_ne (r : Row) (c c' : String) (v : Cell) (h : c' ≠ c) :
    Row.get? (r.map (fun p => if p.1 == c then (c, v) else p)) c' = r.get? c' := by
  have hc : ¬(c = c') := fun hx => h hx.symm
  induction r with
  | nil => rfl
  | cons a t ih =>
    by_cases ha : a.1 = c
    · have ha' : ¬(a.1 = c') := by rw [ha]; exact hc
      simp [Row.get?, h, hc, ha, ha']
      simpa using ih
    · by_cases ha' : a.1 = c'
      · simp [Row.get?, h, hc, ha, ha']
      · simp [Row.get?, ha, ha']
        simpa using ih

lemma get?_append_single_ne (r : Row) (c c' : String) (v : Cell) (h : c' ≠ c) :
    Row.get? (r ++ [(c, v)]) c' = r.get? c' := by
  have hc : ¬(c = c') := fun hx => h hx.symm
  induction r with
  | nil => simp [Row.get?, hc]
  | cons a t ih =>
    by_cases ha' : a.1 = c'
    · simp [Row.get?, ha']
    · simp [Row.get?, ha']
      simpa using ih

lemma get?_setCol_ne (r : Row) (c c' : String) (v : Cell) (h : c' ≠ c) :
    Row.get? (r.setCol c v) c' = r.get? c' := by
  unfold Row.setCol
  by_cases hc : r.hasCol c
  · rw [if_pos hc]
    exact get?_overwrite_ne r c c' v h
  · rw [if_neg hc]
    exact get?_append_single_ne r c c' v h

lemma get?_mapCol_self (r : Row) (c : String) (g : Cell → Cell) :
    Row.get? (r.mapCol c g) c = (r.get? c).map g := by
  induction r with
  | nil => rfl
  | cons a t ih =>
    by_cases h : a.1 = c
    · simp [Row.mapCol, Row.get?, h]
    · simp [Row.mapCol, Row.get?, h]
      simpa [Row.mapCol] using ih

lemma main_rows (header : List String) (records : List (List String)) :
    (zipCodeCentroidsMain header records).rows
      = ((records.map (prepRow header)).filter keepRow).map outRow := by
  unfold zipCodeCentroidsMain read_csv DataFrame.assign DataFrame.toNumeric
    DataFrame.dropna mkGeometryList mkGeoDataFrame GeoDataFrame.select
  simp only [zip_map_self, List.map_map]
  rfl

lemma get?_mapCol_ne (r : Row) (c c' : String) (g : Cell → Cell) (h : c' ≠ c) :
    Row.get? (r.mapCol c g) c' = r.get? c' := by
  have hc : ¬(c = c') := fun hx => h hx.symm
  induction r with
  | nil => rfl
  | cons a t ih =>
    by_cases ha' : a.1 = c'
    · have ha : ¬(a.1 = c) := by rw [ha']; exact h
      simp [Row.mapCol, Row.get?, h, hc, ha, ha']
    · by_cases ha : a.1 = c
      · simp [Row.mapCol, Row.get?, h, hc, ha, ha']
        simpa [Row.mapCol] using ih
      · simp [Row.mapCol, Row.get?, ha, ha']
        simpa [Row.mapCol] using ih

end ZipCodeCentroids

namespace ZipCodeCentroids

lemma rawRow_get_str (header : List String) (rec : List String) (c : String)
    (cell : Cell) (h : (rawRow header rec).get? c = some cell) :
    ∃ s, cell = Cell.str s := by
  unfold rawRow at h
  suffices H : ∀ (l : List (String × String)) (cell : Cell),
      Row.get? (l.map (fun p => (p.1, Cell.str p.2))) c = some cell →
        ∃ s, cell = Cell.str s from H _ _ h
  intro l
  induction l with
  | nil => intro cell h2; cases h2
  | cons a t ih =>
    intro cell h2
    by_cases ha : a.1 = c
    · simp [Row.get?, ha] at h2
      exact ⟨a.2, h2.symm⟩
    · simp [Row.get?, ha] at h2
      exact ih cell h2

lemma prepRow_get_ZIP (header : List String) (rec : List String) :
    (prepRow header rec).get? "ZIP"
      = some (Cell.str ((rawRow header rec).getStr "GEOID")) := by
  unfold prepRow
  rw [get?_mapCol_ne _ _ _ _ (by decide), get?_mapCol_ne _ _ _ _ (by decide),
    get?_setCol_self]

lemma prepRow_get_lat (header : List String) (rec : List String) :
    (prepRow header rec).get? "INTPTLAT"
      = ((rawRow header rec).get? "INTPTLAT").map toNumCell := by
  unfold prepRow
  rw [get?_mapCol_ne _ _ _ _ (by decide), get?_mapCol_self,
    get?_setCol_ne _ _ _ _ (by decide)]

lemma prepRow_get_long (header : List String) (rec : List String) :
    (prepRow header rec).get? "INTPTLONG"
      = ((rawRow header rec).get? "INTPTLONG").map toNumCell := by
  unfold prepRow
  rw [get?_mapCol_self, get?_mapCol_ne _ _ _ _ (by decide),
    get?_setCol_ne _ _ _ _ (by decide)]

lemma isNA_eq_isNone (header : List String) (rec : List String) (c : String)
    (hget : (prepRow header rec).get? c = ((rawRow header rec).get? c).map toNumCell) :
    (prepRow header rec).isNA c = (coordParse header rec c).isNone := by
  unfold Row.isNA coordParse
  rw [hget]
  cases hr : (rawRow header rec).get? c with
  | none => rfl
  | some cell =>
    obtain ⟨s, rfl⟩ := rawRow_get_str header rec c cell hr
    cases hp : parseRat? s <;> simp [toNumCell, hp]

lemma keepRow_prepRow (header : List String) (rec : List String) :
    keepRow (prepRow header rec) = !(malformedRec header rec) := by
  unfold keepRow malformedRec
  rw [List.all_cons, List.all_cons, List.all_nil,
    isNA_eq_isNone header rec _ (prepRow_get_lat header rec),
    isNA_eq_isNone header rec _ (prepRow_get_long header rec)]
  cases (coordParse header rec "INTPTLAT").isNone <;>
    cases (coordParse header rec "INTPTLONG").isNone <;> rfl

lemma getNum_of_coordParse (header : List String) (rec : List String)
    (c : String) (q : ℚ)
    (hget : (prepRow header rec).get? c = ((rawRow header rec).get? c).map toNumCell)
    (h : coordParse header rec c = some q) :
    (prepRow header rec).getNum c = q := by
  unfold coordParse at h
  unfold Row.getNum
  cases hr : (rawRow header rec).get? c with
  | none => rw [hr] at h; simp at h
  | some cell =>
    obtain ⟨s, rfl⟩ := rawRow_get_str header rec c cell hr
    rw [hr] at h
    simp only [] at h
    rw [hget, hr]
    simp [toNumCell, h]

lemma outRow_eq (r : Row) (a : Cell) (ha : r.get? "ZIP" = some a) :
    outRow r = [("ZIP", a),
      ("geometry", Cell.geom (Geometry.point (r.getNum "INTPTLONG")
        (r.getNum "INTPTLAT")))] := by
  unfold outRow
  rw [List.filterMap_cons, List.filterMap_cons, List.filterMap_nil]
  rw [get?_setCol_ne _ _ _ _ (by decide), ha, get?_setCol_self]
  rfl

lemma filter_geometry_get?_none (r : Row) :
    Row.get? (r.filter (fun p => !(p.1 == "geometry"))) "geometry" = none := by
  induction r with
  | nil => rfl
  | cons a t ih =>
    by_cases ha : a.1 = "geometry"
    · simp [List.filter_cons, ha]
      exact ih
    · simp [List.filter_cons, ha, Row.get?]
      exact ih

end ZipCodeCentroids

namespace ZipCodeCentroids

lemma parseRat?_forty : parseRat? "40.0" = some 40 := by
  have h : parseRat? "40.0"
      = some (((40 : ℕ) : ℚ) + ((0 : ℕ) : ℚ) / ((10 : ℚ) ^ (1 : ℕ))) := rfl
  rw [h]
  norm_num

lemma parseRat?_neg75 : parseRat? "-75.0" = some (-75) := by
  have h : parseRat? "-75.0"
      = some (-(((75 : ℕ) : ℚ) + ((0 : ℕ) : ℚ) / ((10 : ℚ) ^ (1 : ℕ)))) := rfl
  rw [h]
  norm_num

lemma ex_mem :
    ([("ZIP", Cell.str "00501"),
        ("geometry", Cell.geom (Geometry.point (-75) 40))] : Row)
      ∈ (zipCodeCentroidsMain ["GEOID", "INTPTLAT", "INTPTLONG"]
          [["00501", "40.0", "-75.0"]]).rows := by
  rw [main_rows]
  have hlat : coordParse ["GEOID", "INTPTLAT", "INTPTLONG"]
      ["00501", "40.0", "-75.0"] "INTPTLAT" = some 40 := by
    show parseRat? "40.0" = some 40
    exact parseRat?_forty
  have hlong : coordParse ["GEOID", "INTPTLAT", "INTPTLONG"]
      ["00501", "40.0", "-75.0"] "INTPTLONG" = some (-75) := by
    show parseRat? "-75.0" = some (-75)
    exact parseRat?_neg75
  have hkeep : keepRow (prepRow ["GEOID", "INTPTLAT", "INTPTLONG"]
      ["00501", "40.0", "-75.0"]) = true := by
    rw [keepRow_prepRow]
    unfold malformedRec
    rw [hlat, hlong]
    rfl
  simp only [List.map_cons, List.map_nil, List.filter_cons, hkeep, if_true,
    List.filter_nil]
  rw [outRow_eq _ _ (prepRow_get_ZIP _ _),
    getNum_of_coordParse _ _ _ (-75) (prepRow_get_long _ _) hlong,
    getNum_of_coordParse _ _ _ 40 (prepRow_get_lat _ _) hlat]
  have hgeoid : (rawRow ["GEOID", "INTPTLAT", "INTPTLONG"]
      ["00501", "40.0", "-75.0"]).getStr "GEOID" = "00501" := rfl
  rw [hgeoid]
  exact List.mem_singleton.mpr rfl

/-- C1: every row of the output dataset carries, in its `ZIP` field, exactly
the `GEOID` string of the input record it came from — the identifier is the
verbatim raw string cell (never a parsed or reformatted number), so leading
zeros are preserved character-for-character. -/
theorem identifier_preserved (header : List String) (records : List (List String))
    (r : Row) (hr : r ∈ (zipCodeCentroidsMain header records).rows) :
    ∃ rec ∈ records,
      r.get? "ZIP" = some (Cell.str ((rawRow header rec).getStr "GEOID")) := by
  rw [main_rows] at hr
  obtain ⟨r1, hr1, rfl⟩ := List.mem_map.mp hr
  obtain ⟨hmem, _⟩ := List.mem_filter.mp hr1
  obtain ⟨rec, hrec, rfl⟩ := List.mem_map.mp hmem
  refine ⟨rec, hrec, ?_⟩
  rw [outRow_eq _ _ (prepRow_get_ZIP header rec)]
  rfl

/-- C1 witness: the identifier `"00501"` appears in the output as `"00501"`,
not `"501"`. -/
theorem identifier_preserved_witness :
    ([("ZIP", Cell.str "00501"),
        ("geometry", Cell.geom (Geometry.point (-75) 40))] : Row)
        ∈ (zipCodeCentroidsMain ["GEOID", "INTPTLAT", "INTPTLONG"]
            [["00501", "40.0", "-75.0"]]).rows
      ∧ ∃ rec ∈ [["00501", "40.0", "-75.0"]],
          Row.get? [("ZIP", Cell.str "00501"),
              ("geometry", Cell.geom (Geometry.point (-75) 40))] "ZIP"
            = some (Cell.str
                ((rawRow ["GEOID", "INTPTLAT", "INTPTLONG"] rec).getStr "GEOID")) :=
  ⟨ex_mem, identifier_preserved _ _ _ ex_mem⟩

/-- C2: numeric coercion never raises (`parseRat?`/`toNumCell` are total and
return the `none` sentinel on failure), malformed rows — those where either
coordinate fails to parse — are dropped, and the output row count equals the
input row count minus the malformed row count. -/
theorem output_count_eq_input_minus_malformed (header : List String)
    (records : List (List String)) :
    (zipCodeCentroidsMain header records).rows.length
      = records.length - records.countP (malformedRec header) := by
  rw [main_rows, List.length_map, ← List.countP_eq_length_filter, List.countP_map]
  have h1 : (keepRow ∘ prepRow header) = (fun rec => !(malformedRec header rec)) :=
    funext (fun rec => keepRow_prepRow header rec)
  rw [h1]
  have h2 := countP_add_countP_not records (malformedRec header)
  omega

/-- C3: every geometry in the output dataset is a point whose first
component is the parsed longitude (`INTPTLONG`) of its source record and
whose second component is the parsed latitude (`INTPTLAT`). -/
theorem geometry_lon_lat_order (header : List String)
    (records : List (List String)) (r : Row)
    (hr : r ∈ (zipCodeCentroidsMain header records).rows) :
    ∃ rec ∈ records, ∃ lon lat : ℚ,
      coordParse header rec "INTPTLONG" = some lon ∧
      coordParse header rec "INTPTLAT" = some lat ∧
      r.get? "geometry" = some (Cell.geom (Geometry.point lon lat)) := by
  rw [main_rows] at hr
  obtain ⟨r1, hr1, rfl⟩ := List.mem_map.mp hr
  obtain ⟨hmem, hkeep⟩ := List.mem_filter.mp hr1
  obtain ⟨rec, hrec, rfl⟩ := List.mem_map.mp hmem
  rw [keepRow_prepRow] at hkeep
  have hmal : malformedRec header rec = false := by
    cases hm : malformedRec header rec
    · rfl
    · rw [hm] at hkeep; cases hkeep
  unfold malformedRec at hmal
  obtain ⟨hlat, hlong⟩ := Bool.or_eq_false_iff.mp hmal
  cases hlatv : coordParse header rec "INTPTLAT" with
  | none => rw [hlatv] at hlat; simp at hlat
  | some lat =>
    cases hlongv : coordParse header rec "INTPTLONG" with
    | none => rw [hlongv] at hlong; simp at hlong
    | some lon =>
      refine ⟨rec, hrec, lon, lat, hlongv, hlatv, ?_⟩
      rw [outRow_eq _ _ (prepRow_get_ZIP header rec),
        getNum_of_coordParse header rec _ lon (prepRow_get_long header rec) hlongv,
        getNum_of_coordParse header rec _ lat (prepRow_get_lat header rec) hlatv]
      simp [Row.get?]

/-- C3 witness: the record with latitude `40.0` and longitude `-75.0`
yields a point whose first component is `-75` and whose second is `40`. -/
theorem geometry_lon_lat_order_witness :
    ([("ZIP", Cell.str "00501"),
        ("geometry", Cell.geom (Geometry.point (-75) 40))] : Row)
        ∈ (zipCodeCentroidsMain ["GEOID", "INTPTLAT", "INTPTLONG"]
            [["00501", "40.0", "-75.0"]]).rows
      ∧ ∃ rec ∈ [["00501", "40.0", "-75.0"]], ∃ lon lat : ℚ,
          coordParse ["GEOID", "INTPTLAT", "INTPTLONG"] rec "INTPTLONG" = some lon ∧
          coordParse ["GEOID", "INTPTLAT", "INTPTLONG"] rec "INTPTLAT" = some lat ∧
          Row.get? [("ZIP", Cell.str "00501"),
              ("geometry", Cell.geom (Geometry.point (-75) 40))] "geometry"
            = some (Cell.geom (Geometry.point lon lat)) :=
  ⟨ex_mem, geometry_lon_lat_order _ _ _ ex_mem⟩

/-- C7: the serialized dataset has exactly the two attribute columns `ZIP`
(the string identifier) and `geometry`: the projected geodataframe's column
list is exactly `["ZIP", "geometry"]` and every output row carries exactly
those two keys, so every other source column is absent from the output. -/
theorem output_schema_two_fields (header : List String)
    (records : List (List String)) :
    (zipCodeCentroidsMain header records).cols = ["ZIP", "geometry"]
      ∧ ∀ r ∈ (zipCodeCentroidsMain header records).rows,
          r.map Prod.fst = ["ZIP", "geometry"] := by
  refine ⟨rfl, ?_⟩
  intro r hr
  rw [main_rows] at hr
  obtain ⟨r1, hr1, rfl⟩ := List.mem_map.mp hr
  obtain ⟨hmem, _⟩ := List.mem_filter.mp hr1
  obtain ⟨rec, hrec, rfl⟩ := List.mem_map.mp hmem
  rw [outRow_eq _ _ (prepRow_get_ZIP header rec)]
  rfl

/-- C8: the output dataset is the ordered sequence of processed rows in
input order — a sublist (order-preserving selection) of the per-record
processed input — tagged with the WGS84 coordinate system `EPSG:4326`:
filtering drops rows but never reorders the survivors. -/
theorem output_order_preserved (header : List String)
    (records : List (List String)) :
    (zipCodeCentroidsMain header records).rows.Sublist
        (records.map (fun rec => outRow (prepRow header rec)))
      ∧ (zipCodeCentroidsMain header records).crs = "EPSG:4326" := by
  constructor
  · rw [main_rows]
    have h := (List.filter_sublist (p := keepRow)
      (records.map (prepRow header))).map outRow
    simpa [List.map_map, Function.comp] using h
  · rfl

/-- C9: reading the written dataset back yields exactly as many rows
(identifier plus geometry records) as were written, and every geometry
read back is a single point — never a multi-point or any other type. -/
theorem roundtrip_counts_and_point_type (header : List String)
    (records : List (List String)) :
    (read_file (to_file (zipCodeCentroidsMain header records))).rows.length
        = (zipCodeCentroidsMain header records).rows.length
      ∧ ∀ r ∈ (read_file (to_file (zipCodeCentroidsMain header records))).rows,
          ∃ x y, r.get? "geometry" = some (Cell.geom (Geometry.point x y)) := by
  constructor
  · simp [read_file, to_file]
  · intro r hr
    simp only [read_file, to_file, List.map_map, List.mem_map,
      Function.comp] at hr
    obtain ⟨r1, hr1, rfl⟩ := hr
    rw [main_rows] at hr1
    obtain ⟨r2, hr2, rfl⟩ := List.mem_map.mp hr1
    obtain ⟨hmem, _⟩ := List.mem_filter.mp hr2
    obtain ⟨rec, hrec, rfl⟩ := List.mem_map.mp hmem
    refine ⟨(prepRow header rec).getNum "INTPTLONG",
      (prepRow header rec).getNum "INTPTLAT", ?_⟩
    rw [get?_append_of_none _ _ _ (filter_geometry_get?_none _)]
    have hgeom : (outRow (prepRow header rec)).getGeom
        = Geometry.point ((prepRow header rec).getNum "INTPTLONG")
            ((prepRow header rec).getNum "INTPTLAT") := by
      unfold Row.getGeom
      rw [outRow_eq _ _ (prepRow_get_ZIP header rec)]
      rfl
    rw [hgeom]
    rfl

end ZipCodeCentroids
